import Mathlib

/-!
Shallow embedding of `blueman/gui/manager/ManagerDeviceList.py` (the
`ManagerDeviceList` tree-view controller) and proofs about its row data
model, its update handlers and its signal-level bookkeeping.

External modules (`blueman.DeviceClass`, `blueman.Sdp`, `html`, the GTK
widget machinery, the `_blueman` C extension) are modelled by abstract
fields and small faithful definitions; everything taken from the Python
source keeps its name where Lean allows it.
-/

namespace Blueman

/-! ### Python `round(x, -1)`

Python rounds floats half-to-even. `round(x, -1)` rounds to the nearest
multiple of ten, ties going to the even multiple. We embed the float
percentages as rationals (all arithmetic performed on them in the source
is exact on the inputs we consider). -/

/-- Round half to even: nearest integer, ties to the even one. -/
def rndHalfEven (q : ℚ) : ℤ :=
  let n : ℤ := ⌊q⌋
  if q - n < 1/2 then n
  else if (1:ℚ)/2 < q - n then n + 1
  else if n % 2 = 0 then n else n + 1

/-- Python `round(q, -1)`: round to the nearest multiple of ten (half to even). -/
def roundTen (q : ℚ) : ℤ :=
  10 * rndHalfEven (q / 10)

/-! ### `html.escape` (Python stdlib, default `quote=True`) -/

/-- Escape of a single character under `html.escape` with `quote=True`. -/
def escapeChar (c : Char) : String :=
  if c = '&' then "&amp;"
  else if c = '<' then "&lt;"
  else if c = '>' then "&gt;"
  else if c = Char.ofNat 34 then "&quot;"
  else if c = Char.ofNat 39 then "&#x27;"
  else String.singleton c

/-- Python `html.escape` with its default `quote=True`. -/
def htmlEscape (s : String) : String :=
  String.join (s.toList.map escapeChar)

/-! ### Python `%` mapping-format, as used by `make_caption`

`make_caption` formats a literal template with `template % {"0": ..., "1":
..., "2": ...}`. We embed the `%(key)s` interpreter: any other conversion
never occurs in the template, so the fallback arms only make the function
total. -/

/-- Interpreter of Python `%`-formatting restricted to `%(key)s`
substitutions, applied to a mapping `m`. -/
def pyMapFormat (m : String → String) : List Char → String
  | [] => ""
  | '%' :: '(' :: rest =>
    if (rest.dropWhile (fun c => c ≠ ')')).take 2 = [')', 's'] then
      m (String.mk (rest.takeWhile (fun c => c ≠ ')')))
        ++ pyMapFormat m ((rest.dropWhile (fun c => c ≠ ')')).drop 2)
    else "%(" ++ pyMapFormat m rest
  | c :: rest => String.singleton c ++ pyMapFormat m rest
termination_by l => l.length
decreasing_by
  · have hle := (List.dropWhile_sublist (l := rest) (fun c => decide (c ≠ ')'))).length_le
    have hdrop := List.length_drop 2 (rest.dropWhile (fun c => decide (c ≠ ')')))
    simp at hle hdrop ⊢
    omega
  · simp; omega
  · simp

/-- A single-quote character as a string (kept out of string literals). -/
def sq : String := String.singleton (Char.ofNat 39)

/-- The caption template from `make_caption`
(with its single quotes written via `sq`). -/
def captionTemplate : String :=
  "<span size=" ++ sq ++ "x-large" ++ sq ++ ">%(0)s</span>\n<span size="
    ++ sq ++ "small" ++ sq ++ ">%(1)s</span>\n<i>%(2)s</i>"

/-- `ManagerDeviceList.make_caption`: format the template with the
HTML-escaped name, the class string and the address. -/
def make_caption (name klass address : String) : String :=
  pyMapFormat
    (fun k => if k = "0" then htmlEscape name
              else if k = "1" then klass
              else if k = "2" then address
              else "")
    captionTemplate.toList

/-! ### Devices and rows -/

/-- OBEX object-push service class id, from `blueman.Sdp`. -/
def OBEX_OBJPUSH_SVCLASS_ID : Nat := 0x1105

/-- A device handle. `uuids` holds the short uuids of the device's
`UUIDs` property (the `ServiceUUID(uuid).short_uuid` extraction lives in
the external `blueman.Sdp`); `minorClass` / `majorClass` are the results
of the external `blueman.DeviceClass.get_minor_class` / `get_major_class`
on the device's `Class`; `appearanceName` is the external
`gatt_appearance_to_name` of `appearance`; `iconInfo` is the icon-theme
lookup result for the device's `Icon` property. -/
structure Device where
  address : String
  alias_ : String
  uuids : List Nat
  trusted : Bool
  paired : Bool
  connected : Bool
  minorClass : String
  majorClass : String
  appearance : Nat
  appearanceName : String
  iconInfo : Option Nat
  deriving Repr, DecidableEq

/-- `ManagerDeviceList.get_device_class`: the minor class unless it is
"Uncategorized", in which case the major class. -/
def get_device_class (d : Device) : String :=
  if d.minorClass ≠ "Uncategorized" then d.minorClass else d.majorClass

/-- `ManagerDeviceList._has_objpush`: `False` on a missing device,
otherwise whether some uuid has the OBEX object-push short uuid. -/
def has_objpush (d : Option Device) : Bool :=
  match d with
  | none => false
  | some dev => dev.uuids.any (fun u => u == OBEX_OBJPUSH_SVCLASS_ID)

/-- One row of the list store: the `tabledata` columns of
`ManagerDeviceList.__init__` plus the `device` column added by the base
`DeviceList`. Pixbuf columns hold the loaded icon's file name, surface
and fader columns hold opaque handles. -/
structure Row where
  device : Device
  device_surface : Nat
  caption : String
  rssi_pb : Option String
  lq_pb : Option String
  tpl_pb : Option String
  alias_ : String
  connected : Bool
  paired : Bool
  trusted : Bool
  objpush : Bool
  rssi : ℚ
  lq : ℚ
  tpl : ℚ
  icon_info : Option Nat
  cell_fader : Nat
  row_fader : Nat
  levels_visible : Bool
  initial_anim : Bool
  deriving Repr, DecidableEq

/-- `ManagerDeviceList.row_update_event`. The Python `value` is `Any`;
`vb` is its truthiness (used by the Trusted/Paired/Connected branches)
and `vs` its string content (used by the Alias branch). -/
def row_update_event (r : Row) (d : Device) (key : String) (vb : Bool) (vs : String) : Row :=
  if key = "Trusted" then
    (if vb then { r with trusted := true } else { r with trusted := false })
  else if key = "Paired" then
    (if vb then { r with paired := true } else { r with paired := false })
  else if key = "Alias" then
    { r with caption := make_caption vs (get_device_class d) d.address, alias_ := vs }
  else if key = "UUIDs" then
    { r with objpush := has_objpush (some d) }
  else if key = "Connected" then
    { r with connected := vb }
  else r

/-! ### Connection info and signal levels (`level_setup_event`)

The `_blueman.conn_info` C extension provides `failed`, `get_rssi`,
`get_lq` and `get_tpl`; a getter raising `ConnInfoReadError` is embedded
as `none`. -/

/-- A `_blueman.conn_info` snapshot: the `failed` flag and the three
getter results (`none` embeds a `ConnInfoReadError`). -/
structure conn_info where
  failed : Bool
  rssi : Option ℚ
  lq : Option ℚ
  tpl : Option ℚ
  deriving Repr, DecidableEq

/-- The percentage computation inlined in `level_setup_event`:
`(rssi_perc, lq_perc, tpl_perc)`; on `failed` all three are 100, else
converted from the readings (0 on a read error) and raised to at least
10. -/
def levelPercentages (ci : conn_info) : ℚ × ℚ × ℚ :=
  if ci.failed then (100, 100, 100)
  else
    let rssi := ci.rssi.getD 0
    let lq := ci.lq.getD 0
    let tpl := ci.tpl.getD 0
    let rssi_perc := 50 + (rssi / 127 / 2 * 100)
    let tpl_perc := 50 + (tpl / 127 / 2 * 100)
    let lq_perc := lq / 255 * 100
    (if rssi_perc < 10 then 10 else rssi_perc,
     if lq_perc < 10 then 10 else lq_perc,
     if tpl_perc < 10 then 10 else tpl_perc)

/-- File name of a level indicator icon: Python
`"blueman-xxx-%d.png" % round(perc, -1)`. -/
def iconName (pre : String) (bucket : ℤ) : String :=
  pre ++ toString bucket ++ ".png"

/-- Prefix of the rssi indicator icon file names. -/
def rssiIconPre : String := "blueman-rssi-"

/-- Prefix of the link-quality indicator icon file names. -/
def lqIconPre : String := "blueman-lq-"

/-- Prefix of the transmit-power indicator icon file names. -/
def tplIconPre : String := "blueman-tpl-"

/-- New stored percentage of one metric: replaced by the freshly computed
percentage exactly when `round(old, -1) != round(new, -1)` (the
`to_store` update of `level_setup_event`). -/
def updateVal (old perc : ℚ) : ℚ :=
  if roundTen old ≠ roundTen perc then perc else old

/-- New stored indicator pixbuf of one metric: replaced by the icon for
the new rounded bucket exactly when the rounded bucket changed. -/
def updatePb (old : ℚ) (pb : Option String) (perc : ℚ) (pre : String) : Option String :=
  if roundTen old ≠ roundTen perc then some (iconName pre (roundTen perc)) else pb

/-- The icon file loaded from disk for one metric, if any: exactly when
the rounded bucket changed (`GdkPixbuf.Pixbuf.new_from_file`). -/
def updateLoad (old perc : ℚ) (pre : String) : Option String :=
  if roundTen old ≠ roundTen perc then some (iconName pre (roundTen perc)) else none

/-- The icon files loaded from disk by one `level_setup_event` call, per
metric. -/
structure LevelLoads where
  rssi : Option String
  lq : Option String
  tpl : Option String
  deriving Repr, DecidableEq

/-- `ManagerDeviceList.level_setup_event` on a valid row reference: the
new row state together with the icon loads performed. With a `conn_info`
the three metrics are updated bucket-wise and the level cells are made
visible; without one, a visible row has its metrics reset to -1 (the
pixbufs themselves are cleared later, by the fade-out's
animation-finished callback, which is not part of the stored-state
update here). -/
def level_setup_event (r : Row) (cinfo : Option conn_info) : Row × LevelLoads :=
  match cinfo with
  | some ci =>
    let p := levelPercentages ci
    ({ r with levels_visible := true,
              rssi := updateVal r.rssi p.1,
              lq := updateVal r.lq p.2.1,
              tpl := updateVal r.tpl p.2.2,
              rssi_pb := updatePb r.rssi r.rssi_pb p.1 rssiIconPre,
              lq_pb := updatePb r.lq r.lq_pb p.2.1 lqIconPre,
              tpl_pb := updatePb r.tpl r.tpl_pb p.2.2 tplIconPre },
     ⟨updateLoad r.rssi p.1 rssiIconPre,
      updateLoad r.lq p.2.1 lqIconPre,
      updateLoad r.tpl p.2.2 tplIconPre⟩)
  | none =>
    if r.levels_visible then
      ({ r with levels_visible := false, rssi := -1, lq := -1, tpl := -1 },
       ⟨none, none, none⟩)
    else (r, ⟨none, none, none⟩)

/-! ### `row_setup_event` -/

/-- The description string computed at the top of `row_setup_event` from
the minor class, the Appearance property and the major class. -/
def row_description (d : Device) : String :=
  if d.minorClass ≠ "Uncategorized" ∧ d.minorClass ≠ "Unknown" then d.minorClass
  else if d.minorClass = "Unknown" ∧ d.appearance ≠ 0 then d.appearanceName
  else d.majorClass

/-- First-render side effects of `row_setup_event`: whether fresh faders
were constructed, and the row fade animation (start, end, duration in
ms) if one was started. -/
structure SetupEffects where
  created_faders : Bool
  initial_animation : Option (ℚ × ℚ × Nat)
  deriving Repr, DecidableEq

/-- `ManagerDeviceList.row_setup_event`: on the first call for a row
(`initial_anim` still false) fresh faders are installed,
`levels_visible` and `objpush` are initialised, the row fade 0 → 1 over
500 ms is started and `initial_anim` is set; every call then refreshes
caption, icon and alias and replays Trusted/Paired/Connected through
`row_update_event`. `freshCellFader` / `freshRowFader` stand for the
newly constructed `CellFade` / `TreeRowFade` handles. -/
def row_setup_event (freshCellFader freshRowFader : Nat) (r : Row) (d : Device) :
    Row × SetupEffects :=
  let first :=
    if ¬ r.initial_anim then
      ({ r with cell_fader := freshCellFader, row_fader := freshRowFader,
                levels_visible := false, objpush := has_objpush (some d),
                initial_anim := true },
       SetupEffects.mk true (some (0, 1, 500)))
    else (r, SetupEffects.mk false none)
  let r2 := { first.1 with caption := make_caption d.alias_ (row_description d) d.address,
                           icon_info := d.iconInfo, alias_ := d.alias_ }
  let r3 := row_update_event r2 d "Trusted" d.trusted ""
  let r4 := row_update_event r3 d "Paired" d.paired ""
  let r5 := row_update_event r4 d "Connected" d.connected ""
  (r5, first.2)

/-! ### `on_event_clicked` -/

/-- The Gdk event types inspected by `on_event_clicked`. -/
inductive GdkEventType where
  | button_press
  | twobutton_press
  | other_event
  deriving Repr, DecidableEq

/-- A button event: its type and its button number. -/
structure ClickEvent where
  type : GdkEventType
  button : Nat
  deriving Repr, DecidableEq

/-- The menu actions `on_event_clicked` can trigger. -/
inductive ClickAction where
  | generic_connect (d : Device) (connect : Bool)
  | popup_at_pointer
  deriving Repr, DecidableEq

/-- `ManagerDeviceList.on_event_clicked`: the actions triggered for an
event, given the row under the pointer (`hit`), whether the `Blueman`
instance is present, and the menu's `show_generic_connect_calc`
predicate on the device's uuids. -/
def on_event_clicked (ev : ClickEvent) (hit : Option Row) (bluemanPresent : Bool)
    (show_generic_connect_calc : List Nat → Bool) : List ClickAction :=
  if ev.type ≠ GdkEventType.twobutton_press ∧ ev.type ≠ GdkEventType.button_press then []
  else
    match hit with
    | none => []
    | some row =>
      if ¬ bluemanPresent then []
      else
        (if ev.type = GdkEventType.twobutton_press ∧ ev.button = 1
            ∧ show_generic_connect_calc row.device.uuids
         then [ClickAction.generic_connect row.device (!row.connected)] else [])
        ++ (if ev.type = GdkEventType.button_press ∧ ev.button = 3
            then [ClickAction.popup_at_pointer] else [])

/-! ### `drag_recv` -/

/-- Observable outcome of `drag_recv`: the success flags of the
`context.finish` calls in order, and the `launch` invocations
(command, paths). -/
structure DragRecvResult where
  finishes : List Bool
  launches : List (String × List String)
  deriving Repr, DecidableEq

/-- `ManagerDeviceList.drag_recv`: the context is first finished with
success unconditionally; then, if the drop position hits a row, the
send-to command is launched on the dropped uris and the context is
finished with success again, otherwise it is finished again with
success `False`. -/
def drag_recv (hit : Option Device) (uris : List String) : DragRecvResult :=
  match hit with
  | some d =>
      { finishes := [true, true],
        launches := [("blueman-sendto --device=" ++ d.address, uris)] }
  | none => { finishes := [true, false], launches := [] }

/-! ### `device_remove_event` -/

/-- The side effects of `device_remove_event` and of its
animation-finished callback. -/
inductive RemoveEffect where
  | remove_row
  | connect_finished_handler
  | thaw
  | emit_device_selected (device : Option Device) (it : Option Nat)
  | animate (start stop : ℚ) (durationMs : Nat)
  | disconnect_handler
  | freeze
  deriving Repr, DecidableEq

/-- `ManagerDeviceList.device_remove_event`: the ordered effect trace,
given the retained row fader's current state. -/
def device_remove_event (faderState : ℚ) : List RemoveEffect :=
  [RemoveEffect.remove_row, RemoveEffect.connect_finished_handler, RemoveEffect.thaw,
   RemoveEffect.emit_device_selected none none,
   RemoveEffect.animate faderState 0 400]

/-- `ManagerDeviceList.__on_fader_finished`: the ordered effect trace of
the animation-finished callback installed by `device_remove_event`. -/
def on_fader_finished : List RemoveEffect :=
  [RemoveEffect.disconnect_handler, RemoveEffect.freeze]

/-! ### `make_device_icon` -/

/-- A badge painted onto the device icon surface: icon name, paint
position and paint alpha. -/
structure Overlay where
  icon : String
  x : ℚ
  y : ℚ
  alpha : ℚ
  deriving Repr, DecidableEq

/-- Geometry environment of `make_device_icon`: widget scale factor,
target surface height and badge surface height. -/
structure IconEnv where
  scale : ℚ
  height : ℚ
  miniHeight : ℚ
  deriving Repr, DecidableEq

/-- `ManagerDeviceList.make_device_icon`: the device icon surface
(`base`) with the pairing and trust badges painted onto it in source
order. -/
def make_device_icon (e : IconEnv) (base : Nat) (is_paired is_trusted : Bool) :
    Nat × List Overlay :=
  (base,
    (if is_paired then
       [Overlay.mk "dialog-password" (1 / e.scale) (1 / e.scale) (8/10)] else [])
    ++ (if is_trusted then
          [Overlay.mk "blueman-trust" (1 / e.scale)
             (e.height / e.scale - e.miniHeight / e.scale - 1 / e.scale) (8/10)]
        else []))

/-! ### Row lifecycle -/

/-- A freshly inserted list-store row for a device: GTK column defaults
(`False` booleans, `0.0` floats, empty strings, `None` objects). -/
def newRow (d : Device) : Row :=
  { device := d, device_surface := 0, caption := "", rssi_pb := none, lq_pb := none,
    tpl_pb := none, alias_ := "", connected := false, paired := false, trusted := false,
    objpush := false, rssi := 0, lq := 0, tpl := 0, icon_info := none, cell_fader := 0,
    row_fader := 0, levels_visible := false, initial_anim := false }

/-- Hardware ranges of the `conn_info` readings: rssi and transmit power
are signed bytes, link quality an unsigned byte. -/
def validReadings (ci : conn_info) : Prop :=
  (∀ v ∈ ci.rssi, -127 ≤ v ∧ v ≤ 127) ∧
  (∀ v ∈ ci.lq, 0 ≤ v ∧ v ≤ 255) ∧
  (∀ v ∈ ci.tpl, -127 ≤ v ∧ v ≤ 127)

/-- The row states reachable from a fresh row through the module's
row-mutating event handlers (`conn_info` readings staying in their
hardware ranges). -/
inductive ReachableRow : Row → Prop where
  | init (d : Device) : ReachableRow (newRow d)
  | setup (fc fr : Nat) (r : Row) (d : Device) :
      ReachableRow r → ReachableRow (row_setup_event fc fr r d).1
  | update (r : Row) (d : Device) (key : String) (vb : Bool) (vs : String) :
      ReachableRow r → ReachableRow (row_update_event r d key vb vs)
  | levelNone (r : Row) : ReachableRow r → ReachableRow (level_setup_event r none).1
  | levelSome (r : Row) (ci : conn_info) (h : validReadings ci) :
      ReachableRow r → ReachableRow (level_setup_event r (some ci)).1

/-! ### Specification-side definitions and concrete fixtures -/

/-- The percentage formulas as the specification words them: on a failed
`conn_info` all three are 100, else `rssi_perc = 50 + (rssi/127/2)*100`,
`lq_perc = (lq/255)*100`, `tpl_perc = 50 + (tpl/127/2)*100` with 0
substituted for an unreadable metric, and every percentage below 10
raised to exactly 10. -/
def specLevelPercentages (failed : Bool) (rssi lq tpl : Option ℚ) : ℚ × ℚ × ℚ :=
  if failed then (100, 100, 100)
  else
    (max 10 (50 + (rssi.getD 0 / 127 / 2) * 100),
     max 10 ((lq.getD 0 / 255) * 100),
     max 10 (50 + (tpl.getD 0 / 127 / 2) * 100))

/-- A concrete device used to instantiate theorems. -/
def sampleDevice : Device :=
  { address := "00:11:22:33:44:55", alias_ := "Headset", uuids := [0x1105],
    trusted := false, paired := false, connected := false,
    minorClass := "Uncategorized", majorClass := "Audio", appearance := 0,
    appearanceName := "", iconInfo := none }

/-- A `conn_info` whose initialisation failed (as for Bluetooth ≥ 4
devices); all getters unread. -/
def failedCInfo : conn_info := { failed := true, rssi := none, lq := none, tpl := none }

/-- A reachable row whose metrics were driven to 100 by a failed
`conn_info` and then reset to -1 by a `level_setup_event` without
connection info. -/
def escapedRow : Row :=
  (level_setup_event (level_setup_event (newRow sampleDevice) (some failedCInfo)).1 none).1

/-- A row whose stored metrics are already 100, so that a failed
`conn_info` changes no bucket. -/
def levelWitnessRow : Row :=
  { newRow sampleDevice with rssi := 100, lq := 100, tpl := 100 }

end Blueman
namespace Blueman

lemma roundTen_zero : roundTen 0 = 0 := by norm_num [roundTen, rndHalfEven]

lemma roundTen_hundred : roundTen 100 = 100 := by norm_num [roundTen, rndHalfEven]

lemma row_update_event_rssi (r : Row) (d : Device) (k : String) (vb : Bool) (vs : String) :
    (row_update_event r d k vb vs).rssi = r.rssi := by
  unfold row_update_event; split_ifs <;> rfl

lemma row_update_event_lq (r : Row) (d : Device) (k : String) (vb : Bool) (vs : String) :
    (row_update_event r d k vb vs).lq = r.lq := by
  unfold row_update_event; split_ifs <;> rfl

lemma row_update_event_tpl (r : Row) (d : Device) (k : String) (vb : Bool) (vs : String) :
    (row_update_event r d k vb vs).tpl = r.tpl := by
  unfold row_update_event; split_ifs <;> rfl

lemma row_update_event_initial_anim (r : Row) (d : Device) (k : String) (vb : Bool) (vs : String) :
    (row_update_event r d k vb vs).initial_anim = r.initial_anim := by
  unfold row_update_event; split_ifs <;> rfl

lemma row_update_event_row_fader (r : Row) (d : Device) (k : String) (vb : Bool) (vs : String) :
    (row_update_event r d k vb vs).row_fader = r.row_fader := by
  unfold row_update_event; split_ifs <;> rfl

lemma row_update_event_cell_fader (r : Row) (d : Device) (k : String) (vb : Bool) (vs : String) :
    (row_update_event r d k vb vs).cell_fader = r.cell_fader := by
  unfold row_update_event; split_ifs <;> rfl

lemma row_update_event_levels_visible (r : Row) (d : Device) (k : String) (vb : Bool) (vs : String) :
    (row_update_event r d k vb vs).levels_visible = r.levels_visible := by
  unfold row_update_event; split_ifs <;> rfl

lemma row_update_event_objpush (r : Row) (d : Device) (k : String) (vb : Bool) (vs : String)
    (h : k ≠ "UUIDs") : (row_update_event r d k vb vs).objpush = r.objpush := by
  unfold row_update_event; split_ifs <;> simp_all

lemma row_setup_event_metrics (fc fr : Nat) (r : Row) (d : Device) :
    (row_setup_event fc fr r d).1.rssi = r.rssi
    ∧ (row_setup_event fc fr r d).1.lq = r.lq
    ∧ (row_setup_event fc fr r d).1.tpl = r.tpl := by
  unfold row_setup_event
  cases hi : r.initial_anim <;>
    simp [hi, row_update_event_rssi, row_update_event_lq, row_update_event_tpl]

end Blueman
namespace Blueman

/-- C10: `make_caption` HTML-escapes the name before embedding it in the
Pango markup, embeds the class and address unescaped, and returns exactly
the x-large span of the escaped name, the small span of the class and the
italicised address. -/
theorem make_caption_escapes_only_name (name klass address : String) :
    make_caption name klass address =
      "<span size=" ++ sq ++ "x-large" ++ sq ++ ">" ++ htmlEscape name
        ++ "</span>\n<span size=" ++ sq ++ "small" ++ sq ++ ">" ++ klass
        ++ "</span>\n<i>" ++ address ++ "</i>" := by
  apply String.ext
  simp [make_caption, captionTemplate, sq, pyMapFormat, String.singleton_eq, String.data_append]

/-- C6 counterexample: on a drop that hits no row, `drag_recv` does not
leave the context finished with failure only: it has already finished the
context with success first, so the finish trace is not `[false]`. -/
theorem drag_recv_no_row_counterexample :
    ¬ ((drag_recv none ["file:///tmp/a"]).launches = []
        ∧ (drag_recv none ["file:///tmp/a"]).finishes = [false]) := by
  decide

/-- C6 (amended): `drag_recv` always first finishes the context with
success; on a hit it launches `blueman-sendto --device=<address>` with
the dropped uris and finishes with success again, on a miss it launches
nothing and finishes a second time with success `False`. -/
theorem drag_recv_effects (uris : List String) (d : Device) :
    drag_recv (some d) uris =
      { finishes := [true, true],
        launches := [("blueman-sendto --device=" ++ d.address, uris)] }
    ∧ drag_recv none uris = { finishes := [true, false], launches := [] } :=
  ⟨rfl, rfl⟩

/-- C7: `device_remove_event` removes the row first, starts the fade-out
of the retained row fader from its current state to 0.0 over 400 ms as
its last effect, emits device-selected with (None, None) and thaws the
fader in between; the animation-finished callback ends by freezing the
fader after disconnecting itself. -/
theorem device_remove_event_trace (s : ℚ) :
    (device_remove_event s).head? = some RemoveEffect.remove_row
    ∧ (device_remove_event s).getLast? = some (RemoveEffect.animate s 0 400)
    ∧ RemoveEffect.emit_device_selected none none ∈ device_remove_event s
    ∧ RemoveEffect.thaw ∈ device_remove_event s
    ∧ RemoveEffect.connect_finished_handler ∈ device_remove_event s
    ∧ on_fader_finished = [RemoveEffect.disconnect_handler, RemoveEffect.freeze] := by
  refine ⟨rfl, rfl, ?_, ?_, ?_, rfl⟩ <;> simp [device_remove_event]

/-- C9: `make_device_icon` returns the base surface; the
"dialog-password" badge is painted at alpha 0.8 in the top-left corner
exactly when `is_paired`, the "blueman-trust" badge at alpha 0.8 in the
bottom-left corner exactly when `is_trusted`, and with both flags false
the plain surface carries no overlay. -/
theorem make_device_icon_badges (e : IconEnv) (base : Nat) (pd tr : Bool) :
    (make_device_icon e base pd tr).1 = base
    ∧ (pd = true →
        Overlay.mk "dialog-password" (1 / e.scale) (1 / e.scale) (8/10)
          ∈ (make_device_icon e base pd tr).2)
    ∧ (pd = false → ∀ o ∈ (make_device_icon e base pd tr).2, o.icon ≠ "dialog-password")
    ∧ (tr = true →
        Overlay.mk "blueman-trust" (1 / e.scale)
            (e.height / e.scale - e.miniHeight / e.scale - 1 / e.scale) (8/10)
          ∈ (make_device_icon e base pd tr).2)
    ∧ (tr = false → ∀ o ∈ (make_device_icon e base pd tr).2, o.icon ≠ "blueman-trust")
    ∧ (pd = false → tr = false → (make_device_icon e base pd tr).2 = []) := by
  cases pd <;> cases tr <;> simp [make_device_icon, Overlay.mk.injEq]

/-- C9 witness at a concrete geometry: with both flags false the surface
carries no overlay. -/
theorem make_device_icon_badges_witness :
    (make_device_icon (IconEnv.mk 1 48 16) 7 false false).2 = [] :=
  (make_device_icon_badges (IconEnv.mk 1 48 16) 7 false false).2.2.2.2.2 rfl rfl

/-- C5: a double click with button 1 on a device row, with the generic
connect check succeeding, triggers exactly one generic connect whose
`connect` argument is the negation of the row's stored connected flag. -/
theorem double_click_toggles_connection (row : Row)
    (connectCalc : List Nat → Bool) (h : connectCalc row.device.uuids = true) :
    on_event_clicked (ClickEvent.mk GdkEventType.twobutton_press 1) (some row) true connectCalc
      = [ClickAction.generic_connect row.device (!row.connected)] := by
  simp [on_event_clicked, h]

/-- C5 witness: a double click on a fresh (disconnected) sample row
connects it. -/
theorem double_click_toggles_connection_witness :
    on_event_clicked (ClickEvent.mk GdkEventType.twobutton_press 1)
        (some (newRow sampleDevice)) true (fun _ => true)
      = [ClickAction.generic_connect (newRow sampleDevice).device
           (!(newRow sampleDevice).connected)] :=
  double_click_toggles_connection (newRow sampleDevice) (fun _ => true) rfl

/-- C4: `row_update_event` writes exactly the trusted, paired or
connected boolean for those keys, exactly caption and alias for "Alias",
exactly the recomputed objpush for "UUIDs", and leaves the row unchanged
for every other key. -/
theorem row_update_event_frame (r : Row) (d : Device) (vb : Bool) (vs : String) :
    row_update_event r d "Trusted" vb vs = { r with trusted := vb }
    ∧ row_update_event r d "Paired" vb vs = { r with paired := vb }
    ∧ row_update_event r d "Connected" vb vs = { r with connected := vb }
    ∧ row_update_event r d "Alias" vb vs
        = { r with caption := make_caption vs (get_device_class d) d.address, alias_ := vs }
    ∧ row_update_event r d "UUIDs" vb vs = { r with objpush := has_objpush (some d) }
    ∧ ∀ key : String,
        key ∉ (["Trusted", "Paired", "Alias", "UUIDs", "Connected"] : List String) →
          row_update_event r d key vb vs = r := by
  refine ⟨?_, ?_, ?_, ?_, ?_, ?_⟩
  · cases vb <;> simp [row_update_event]
  · cases vb <;> simp [row_update_event]
  · simp [row_update_event]
  · simp [row_update_event]
  · simp [row_update_event]
  · intro key hk
    simp only [List.mem_cons, List.not_mem_nil, or_false, not_or] at hk
    obtain ⟨h1, h2, h3, h4, h5⟩ := hk
    simp [row_update_event, h1, h2, h3, h4, h5]

/-- C4 witness: an update with the unrelated key "Icon" leaves a sample
row unchanged. -/
theorem row_update_event_frame_witness :
    row_update_event (newRow sampleDevice) sampleDevice "Icon" true "x" = newRow sampleDevice :=
  (row_update_event_frame (newRow sampleDevice) sampleDevice true "x").2.2.2.2.2 "Icon"
    (by decide)

end Blueman
namespace Blueman

lemma row_setup_event_effects (fc fr : Nat) (r : Row) (d : Device) :
    (row_setup_event fc fr r d).2 =
      if r.initial_anim then SetupEffects.mk false none
      else SetupEffects.mk true (some (0, 1, 500)) := by
  unfold row_setup_event
  cases h : r.initial_anim <;> simp [h]

lemma row_setup_event_initial_anim (fc fr : Nat) (r : Row) (d : Device) :
    (row_setup_event fc fr r d).1.initial_anim = true := by
  unfold row_setup_event
  cases h : r.initial_anim <;>
    simp [h, row_update_event_initial_anim]

/-- C8: the first-render block of `row_setup_event` (fresh faders,
levels hidden, objpush recomputed, 0 → 1 fade over 500 ms) runs exactly
when `initial_anim` is false, every run leaves `initial_anim` true, a
call on an already-initialised row keeps its faders and level
visibility, and any later call on the resulting row never re-runs the
initial animation. -/
theorem row_setup_event_initial_once (fc fr : Nat) (r : Row) (d : Device) :
    ((row_setup_event fc fr r d).2 =
       if r.initial_anim then SetupEffects.mk false none
       else SetupEffects.mk true (some (0, 1, 500)))
    ∧ (row_setup_event fc fr r d).1.initial_anim = true
    ∧ (r.initial_anim = true →
        (row_setup_event fc fr r d).1.row_fader = r.row_fader
        ∧ (row_setup_event fc fr r d).1.cell_fader = r.cell_fader
        ∧ (row_setup_event fc fr r d).1.levels_visible = r.levels_visible)
    ∧ (r.initial_anim = false →
        (row_setup_event fc fr r d).1.row_fader = fr
        ∧ (row_setup_event fc fr r d).1.cell_fader = fc
        ∧ (row_setup_event fc fr r d).1.levels_visible = false
        ∧ (row_setup_event fc fr r d).1.objpush = has_objpush (some d))
    ∧ ∀ fc2 fr2 : Nat, ∀ d2 : Device,
        (row_setup_event fc2 fr2 (row_setup_event fc fr r d).1 d2).2
          = SetupEffects.mk false none := by
  refine ⟨row_setup_event_effects fc fr r d, row_setup_event_initial_anim fc fr r d, ?_, ?_, ?_⟩
  · intro h
    unfold row_setup_event
    simp [h, row_update_event_row_fader, row_update_event_cell_fader,
          row_update_event_levels_visible]
  · intro h
    unfold row_setup_event
    simp [h, row_update_event_row_fader, row_update_event_cell_fader,
          row_update_event_levels_visible, row_update_event_objpush]
  · intro fc2 fr2 d2
    rw [row_setup_event_effects, row_setup_event_initial_anim]
    simp

/-- C8 witness: on a row already initialised, `row_setup_event` keeps the
faders and the level visibility. -/
theorem row_setup_event_initial_once_witness :
    (row_setup_event 5 6 { newRow sampleDevice with initial_anim := true } sampleDevice).1.row_fader
      = ({ newRow sampleDevice with initial_anim := true } : Row).row_fader
    ∧ (row_setup_event 5 6 { newRow sampleDevice with initial_anim := true } sampleDevice).1.cell_fader
      = ({ newRow sampleDevice with initial_anim := true } : Row).cell_fader
    ∧ (row_setup_event 5 6 { newRow sampleDevice with initial_anim := true } sampleDevice).1.levels_visible
      = ({ newRow sampleDevice with initial_anim := true } : Row).levels_visible :=
  (row_setup_event_initial_once 5 6 { newRow sampleDevice with initial_anim := true }
    sampleDevice).2.2.1 rfl

/-- C3: the percentages computed by `level_setup_event` agree with the
formulas as the specification states them. -/
theorem level_percentages_match_spec (ci : conn_info) :
    levelPercentages ci = specLevelPercentages ci.failed ci.rssi ci.lq ci.tpl := by
  rcases ci with ⟨f, rr, ll, tt⟩
  cases f
  · simp only [levelPercentages, specLevelPercentages, Bool.false_eq_true, if_false,
               Prod.mk.injEq, max_def]
    refine ⟨?_, ?_, ?_⟩ <;> split_ifs <;> first | rfl | linarith
  · simp [levelPercentages, specLevelPercentages]

end Blueman
namespace Blueman

lemma update_triple (old : ℚ) (pb : Option String) (perc : ℚ) (pre : String) :
    ((updateLoad old perc pre).isSome ↔ roundTen old ≠ roundTen perc)
    ∧ (∀ nm, updateLoad old perc pre = some nm →
        updateVal old perc = perc
        ∧ updatePb old pb perc pre = some nm
        ∧ nm = iconName pre (roundTen (updateVal old perc)))
    ∧ (updateLoad old perc pre = none →
        updateVal old perc = old ∧ updatePb old pb perc pre = pb) := by
  unfold updateVal updatePb updateLoad
  by_cases h : roundTen old = roundTen perc <;> simp [h]

/-- C1: in `level_setup_event` with connection info, a metric's
indicator icon is loaded from file exactly when the stored percentage
and the new percentage round to different multiples of ten; every load
stores the new percentage together with the icon for its bucket (so the
stored pair agrees on the bucket), and without a load both the stored
percentage and the icon stay untouched. -/
theorem level_setup_reload_iff_bucket_change (r : Row) (ci : conn_info) :
    (((level_setup_event r (some ci)).2.rssi).isSome
        ↔ roundTen r.rssi ≠ roundTen (levelPercentages ci).1)
    ∧ (((level_setup_event r (some ci)).2.lq).isSome
        ↔ roundTen r.lq ≠ roundTen (levelPercentages ci).2.1)
    ∧ (((level_setup_event r (some ci)).2.tpl).isSome
        ↔ roundTen r.tpl ≠ roundTen (levelPercentages ci).2.2)
    ∧ (∀ nm, (level_setup_event r (some ci)).2.rssi = some nm →
        (level_setup_event r (some ci)).1.rssi = (levelPercentages ci).1
        ∧ (level_setup_event r (some ci)).1.rssi_pb = some nm
        ∧ nm = iconName rssiIconPre (roundTen (level_setup_event r (some ci)).1.rssi))
    ∧ (∀ nm, (level_setup_event r (some ci)).2.lq = some nm →
        (level_setup_event r (some ci)).1.lq = (levelPercentages ci).2.1
        ∧ (level_setup_event r (some ci)).1.lq_pb = some nm
        ∧ nm = iconName lqIconPre (roundTen (level_setup_event r (some ci)).1.lq))
    ∧ (∀ nm, (level_setup_event r (some ci)).2.tpl = some nm →
        (level_setup_event r (some ci)).1.tpl = (levelPercentages ci).2.2
        ∧ (level_setup_event r (some ci)).1.tpl_pb = some nm
        ∧ nm = iconName tplIconPre (roundTen (level_setup_event r (some ci)).1.tpl))
    ∧ ((level_setup_event r (some ci)).2.rssi = none →
        (level_setup_event r (some ci)).1.rssi = r.rssi
        ∧ (level_setup_event r (some ci)).1.rssi_pb = r.rssi_pb)
    ∧ ((level_setup_event r (some ci)).2.lq = none →
        (level_setup_event r (some ci)).1.lq = r.lq
        ∧ (level_setup_event r (some ci)).1.lq_pb = r.lq_pb)
    ∧ ((level_setup_event r (some ci)).2.tpl = none →
        (level_setup_event r (some ci)).1.tpl = r.tpl
        ∧ (level_setup_event r (some ci)).1.tpl_pb = r.tpl_pb) := by
  have h1 := update_triple r.rssi r.rssi_pb (levelPercentages ci).1 rssiIconPre
  have h2 := update_triple r.lq r.lq_pb (levelPercentages ci).2.1 lqIconPre
  have h3 := update_triple r.tpl r.tpl_pb (levelPercentages ci).2.2 tplIconPre
  exact ⟨h1.1, h2.1, h3.1, h1.2.1, h2.2.1, h3.2.1, h1.2.2, h2.2.2, h3.2.2⟩

/-- C1 witness: a failed `conn_info` on a row already storing 100
reloads no rssi icon and leaves the stored rssi and its icon unchanged. -/
theorem level_setup_reload_iff_bucket_change_witness :
    (level_setup_event levelWitnessRow (some failedCInfo)).1.rssi = levelWitnessRow.rssi
    ∧ (level_setup_event levelWitnessRow (some failedCInfo)).1.rssi_pb
        = levelWitnessRow.rssi_pb :=
  (level_setup_reload_iff_bucket_change levelWitnessRow failedCInfo).2.2.2.2.2.2.1
    (by simp [level_setup_event, updateLoad, levelPercentages, failedCInfo,
              levelWitnessRow, newRow])

end Blueman
namespace Blueman

lemma updateVal_mem (old perc : ℚ) : updateVal old perc = perc ∨ updateVal old perc = old := by
  unfold updateVal; split_ifs <;> simp

lemma levelPercentages_bounds (ci : conn_info) (h : validReadings ci) :
    (10 ≤ (levelPercentages ci).1 ∧ (levelPercentages ci).1 ≤ 100)
    ∧ (10 ≤ (levelPercentages ci).2.1 ∧ (levelPercentages ci).2.1 ≤ 100)
    ∧ (10 ≤ (levelPercentages ci).2.2 ∧ (levelPercentages ci).2.2 ≤ 100) := by
  obtain ⟨h1, h2, h3⟩ := h
  rcases ci with ⟨f, rr, ll, tt⟩
  have hr : -127 ≤ rr.getD 0 ∧ rr.getD 0 ≤ 127 := by
    cases rr with
    | none => norm_num
    | some v => simpa using h1 v (by simp)
  have hl : 0 ≤ ll.getD 0 ∧ ll.getD 0 ≤ 255 := by
    cases ll with
    | none => norm_num
    | some v => simpa using h2 v (by simp)
  have ht : -127 ≤ tt.getD 0 ∧ tt.getD 0 ≤ 127 := by
    cases tt with
    | none => norm_num
    | some v => simpa using h3 v (by simp)
  cases f
  · simp only [levelPercentages, Bool.false_eq_true, if_false]
    refine ⟨?_, ?_, ?_⟩ <;> constructor <;> split_ifs <;> linarith [hr.1, hr.2, hl.1, hl.2, ht.1, ht.2]
  · simp [levelPercentages]
    norm_num

/-- C2 counterexample: a reachable row (failed `conn_info` update, then a
`level_setup_event` without connection info) stores a signal metric of
-1, outside the claimed range 0 to 100. -/
theorem stored_metric_below_zero_counterexample :
    ReachableRow escapedRow ∧ escapedRow.rssi < 0 := by
  constructor
  · exact ReachableRow.levelNone _
      (ReachableRow.levelSome _ failedCInfo (by simp [validReadings, failedCInfo])
        (ReachableRow.init sampleDevice))
  · show escapedRow.rssi < 0
    decide

/-- C2 (amended): at every reachable row state (readings in hardware
ranges) each stored signal metric lies between -1 and 100. -/
theorem signal_metrics_bounded (r : Row) (h : ReachableRow r) :
    (-1 ≤ r.rssi ∧ r.rssi ≤ 100)
    ∧ (-1 ≤ r.lq ∧ r.lq ≤ 100)
    ∧ (-1 ≤ r.tpl ∧ r.tpl ≤ 100) := by
  induction h with
  | init d => norm_num [newRow]
  | setup fc fr r d hr ih =>
      obtain ⟨m1, m2, m3⟩ := row_setup_event_metrics fc fr r d
      rw [m1, m2, m3]; exact ih
  | update r d key vb vs hr ih =>
      rw [row_update_event_rssi, row_update_event_lq, row_update_event_tpl]; exact ih
  | levelNone r hr ih =>
      cases hl : r.levels_visible with
      | false =>
          have he : (level_setup_event r none).1 = r := by simp [level_setup_event, hl]
          rw [he]; exact ih
      | true =>
          have e1 : (level_setup_event r none).1.rssi = -1 := by simp [level_setup_event, hl]
          have e2 : (level_setup_event r none).1.lq = -1 := by simp [level_setup_event, hl]
          have e3 : (level_setup_event r none).1.tpl = -1 := by simp [level_setup_event, hl]
          rw [e1, e2, e3]; norm_num
  | levelSome r ci hv hr ih =>
      have e1 : (level_setup_event r (some ci)).1.rssi
          = updateVal r.rssi (levelPercentages ci).1 := rfl
      have e2 : (level_setup_event r (some ci)).1.lq
          = updateVal r.lq (levelPercentages ci).2.1 := rfl
      have e3 : (level_setup_event r (some ci)).1.tpl
          = updateVal r.tpl (levelPercentages ci).2.2 := rfl
      rw [e1, e2, e3]
      obtain ⟨⟨b1, b2⟩, ⟨b3, b4⟩, b5, b6⟩ := levelPercentages_bounds ci hv
      obtain ⟨⟨i1, i2⟩, ⟨i3, i4⟩, i5, i6⟩ := ih
      refine ⟨⟨?_, ?_⟩, ⟨?_, ?_⟩, ⟨?_, ?_⟩⟩ <;>
        [rcases updateVal_mem r.rssi (levelPercentages ci).1 with hc | hc;
         rcases updateVal_mem r.rssi (levelPercentages ci).1 with hc | hc;
         rcases updateVal_mem r.lq (levelPercentages ci).2.1 with hc | hc;
         rcases updateVal_mem r.lq (levelPercentages ci).2.1 with hc | hc;
         rcases updateVal_mem r.tpl (levelPercentages ci).2.2 with hc | hc;
         rcases updateVal_mem r.tpl (levelPercentages ci).2.2 with hc | hc] <;>
        rw [hc] <;> linarith

/-- C2 witness: the bounds hold at a freshly inserted row. -/
theorem signal_metrics_bounded_witness :
    (-1 ≤ (newRow sampleDevice).rssi ∧ (newRow sampleDevice).rssi ≤ 100)
    ∧ (-1 ≤ (newRow sampleDevice).lq ∧ (newRow sampleDevice).lq ≤ 100)
    ∧ (-1 ≤ (newRow sampleDevice).tpl ∧ (newRow sampleDevice).tpl ≤ 100) :=
  signal_metrics_bounded (newRow sampleDevice) (ReachableRow.init sampleDevice)

end Blueman
